import Mathlib

/-!
Shallow embedding of the VideoByte Prebid.js bidder adapter
(modules/videobyteBidAdapter.js): request validation (validateVideo),
request construction (buildRequests / buildRequestData) and response
interpretation (interpretResponse), with proofs of the behavioural
properties stated in the module specification.

JavaScript conventions are modelled explicitly:
* an absent object field is Option.none;
* an expression that would raise a TypeError makes the surrounding
  operation return none (validateVideo yields an Option Bool, the
  builders yield Option results);
* JS truthiness on strings and numbers (undefined, the empty string and
  0 are falsy) is rendered by truthyStr and the jsOr- helpers;
* the ambient browser state (window.location, document.location) is
  passed as an explicit Page value.
-/

namespace VideoByte

/-- ENDPOINT_URL constant of the adapter. -/
def ENDPOINT_URL : String := "https://x.videobyte.com/ortb"

/-- DEFAULT_BID_TTL constant of the adapter. -/
def DEFAULT_BID_TTL : Int := 30

/-- DEFAULT_CURRENCY constant of the adapter. -/
def DEFAULT_CURRENCY : String := "USD"

/-- DEFAULT_NET_REVENUE constant of the adapter. -/
def DEFAULT_NET_REVENUE : Bool := true

/-- Ambient browser page state read through window.location (hostname,
href) and document.location (protocol). -/
structure Page where
  hostname : String
  href : String
  protocol : String
  deriving DecidableEq

/-- mediaTypes.video of a bid request. The conext field is the
misspelled name assigned by the e2etest branch of buildRequestData; it
is distinct from context and never read. -/
structure VideoParamsIn where
  context : Option String := none
  playerSize : Option (List (List Int)) := none
  mimes : Option (List String) := none
  minduration : Option Int := none
  maxduration : Option Int := none
  placement : Option Int := none
  protocols : Option (List Int) := none
  startdelay : Option Int := none
  skip : Option Int := none
  skipafter : Option Int := none
  minbitrate : Option Int := none
  maxbitrate : Option Int := none
  delivery : Option (List Int) := none
  playbackmethod : Option (List Int) := none
  api : Option (List Int) := none
  linearity : Option Int := none
  conext : Option String := none
  deriving DecidableEq

/-- params.video sub-object; e2etest models the truthiness of
params.video.e2etest. -/
structure VideoOverride where
  e2etest : Bool := false
  deriving DecidableEq

/-- params of a bid request. floor and currency are the fields read
from params when it is used as the fallback floor source. -/
structure Params where
  publisherId : Option String := none
  video : Option VideoOverride := none
  context : Option String := none
  cur : Option String := none
  floor : Option Rat := none
  currency : Option String := none
  deriving DecidableEq

/-- mediaTypes of a bid request. -/
structure MediaTypes where
  video : Option VideoParamsIn := none
  deriving DecidableEq

/-- Supply-chain object, passed through verbatim. -/
structure SchainObj where
  ver : String
  complete : Int
  nodes : List String
  deriving DecidableEq

/-- GDPR consent input: consent string plus the gdprApplies flag
(truthiness modelled as Bool). -/
structure GdprConsent where
  consentString : String
  gdprApplies : Bool
  deriving DecidableEq

/-- refererInfo of a bid request. -/
structure RefererInfo where
  referer : Option String := none
  deriving DecidableEq

/-- Descriptor handed to the floor-resolution capability. -/
structure FloorRequest where
  currency : String
  mediaType : String
  size : String
  deriving DecidableEq

/-- Result of floor resolution (also the shape read off params in the
fallback case). -/
structure FloorData where
  floor : Option Rat := none
  currency : Option String := none
  deriving DecidableEq

/-- Host bid request. params is always an object on host-supplied bid
requests (so the bidRequest.params guard inside the source's e2etest
check is vacuous on this domain), while mediaTypes and
mediaTypes.video may be absent. getFloor is the optional
floor-resolution callable. -/
structure BidRequest where
  bidId : String
  params : Params
  mediaTypes : Option MediaTypes := none
  schain : Option SchainObj := none
  gdprConsent : Option GdprConsent := none
  uspConsent : Option String := none
  refererInfo : Option RefererInfo := none
  getFloor : Option (FloorRequest → FloorData) := none

/-- Wire video object of the single impression. w and h are none when
the corresponding parseInt produced NaN; placement is always set by the
inference step, hence not optional. -/
structure WireVideo where
  w : Option Int
  h : Option Int
  mimes : Option (List String) := none
  minduration : Option Int := none
  maxduration : Option Int := none
  protocols : Option (List Int) := none
  startdelay : Option Int := none
  skip : Option Int := none
  skipafter : Option Int := none
  minbitrate : Option Int := none
  maxbitrate : Option Int := none
  delivery : Option (List Int) := none
  playbackmethod : Option (List Int) := none
  api : Option (List Int) := none
  linearity : Option Int := none
  placement : Int
  deriving DecidableEq

/-- Wire impression. -/
structure Imp where
  id : String
  video : WireVideo
  secure : Int
  bidfloor : Option Rat := none
  bidfloorcur : Option String := none
  deriving DecidableEq

/-- Wire site object. -/
structure Site where
  domain : String
  page : String
  ref : Option String := none
  deriving DecidableEq

/-- source.ext on the wire request. -/
structure SourceExt where
  schain : Option SchainObj := none
  deriving DecidableEq

/-- source on the wire request. -/
structure SourceObj where
  ext : Option SourceExt := none
  deriving DecidableEq

/-- user.ext on the wire request. -/
structure UserExt where
  consent : Option String := none
  deriving DecidableEq

/-- user on the wire request. -/
structure UserObj where
  ext : Option UserExt := none
  deriving DecidableEq

/-- regs.ext on the wire request; gdpr and us_privacy are sibling keys
written by two independent extensions. -/
structure RegsExt where
  gdpr : Option Int := none
  us_privacy : Option String := none
  deriving DecidableEq

/-- regs on the wire request. -/
structure Regs where
  ext : Option RegsExt := none
  deriving DecidableEq

/-- OpenRTB-shaped wire bid request. source, user and regs exist only
when some extension wrote them. -/
structure OpenRtbRequest where
  id : String
  imp : List Imp
  site : Site
  source : Option SourceObj := none
  user : Option UserObj := none
  regs : Option Regs := none
  deriving DecidableEq

/-- HTTP request descriptor returned by buildRequests for one bid
request. data holds the wire body (its JSON serialization is not
modelled). -/
structure ServerRequest where
  method : String
  url : String
  data : OpenRtbRequest
  deriving DecidableEq

/-- One bid inside a seat of the endpoint response. -/
structure ORTBBid where
  id : Option String := none
  price : Option Rat := none
  w : Option Int := none
  h : Option Int := none
  adm : Option String := none
  crid : Option String := none
  adomain : Option (List String) := none
  deriving DecidableEq

/-- One seat of the endpoint response. -/
structure SeatBid where
  bid : Option (List ORTBBid) := none
  deriving DecidableEq

/-- Body of the endpoint response. -/
structure RespBody where
  id : Option String := none
  seatbid : Option (List SeatBid) := none
  deriving DecidableEq

/-- Raw server response as handed to interpretResponse. -/
structure ServerResponse where
  body : Option RespBody := none
  deriving DecidableEq

/-- meta of a normalized bid. -/
structure BidMeta where
  adomain : Option (List String) := none
  deriving DecidableEq

/-- Normalized bid handed back to the host. vastXml is none when the
field was not set. -/
structure NormalizedBid where
  requestId : Option String
  cpm : Option Rat
  width : Option Int
  height : Option Int
  ad : Option String
  ttl : Int
  creativeId : Option String
  netRevenue : Bool
  currency : String
  mediaType : String
  meta : BidMeta
  vastXml : Option String := none
  deriving DecidableEq

/-- JS truthiness of a possibly-absent string: undefined and the empty
string are falsy. -/
def truthyStr : Option String → Bool
  | some s => s != ""
  | none => false

/-- JS expression (n || d) on a numeric field: undefined and 0 fall
through to the default. -/
def jsOrInt : Option Int → Int → Int
  | some n, d => if n = 0 then d else n
  | none, d => d

/-- JS expression (s || d) on a string field: undefined and the empty
string fall through to the default. -/
def jsOrStr : Option String → String → String
  | some s, d => if s = "" then d else s
  | none, d => d

/-- JS expression (s || null) on a string field. -/
def jsOrNull : Option String → Option String
  | some s => if s = "" then none else some s
  | none => none

/-- isSecure helper: document.location.protocol equals https. -/
def isSecure (pg : Page) : Bool := pg.protocol == "https:"

/-- Truthiness of params.video and params.video.e2etest, the test
bypass shared by validateVideo, buildRequests and buildRequestData. -/
def isE2e (r : BidRequest) : Bool :=
  match r.params.video with
  | some vo => vo.e2etest
  | none => false

/-- validateVideo from the source. Returns none where the JS code
raises a TypeError: reading .video when bidRequest.mediaTypes is
undefined. -/
def validateVideo (r : BidRequest) : Option Bool :=
  if isE2e r then
    some true
  else
    match r.mediaTypes with
    | none => none
    | some mt =>
      match mt.video with
      | none => some false
      | some v =>
        if !truthyStr r.params.publisherId then some false
        else if !truthyStr v.context then some false
        else if v.context ≠ some "instream" then some false
        else
          match v.playerSize with
          | none => some false
          | some _ => some true

/-- Modelled from the spec: utils.deepSetValue (src/utils.js is not
among the given sources) writes source.ext.schain with deep-set
semantics, creating missing intermediate objects and preserving
sibling keys. -/
def deepSetSchain (q : OpenRtbRequest) (s : SchainObj) : OpenRtbRequest :=
  let src := q.source.getD {}
  let ext := src.ext.getD {}
  { q with source := some { src with ext := some { ext with schain := some s } } }

/-- Modelled from the spec: deepSetValue on user.ext.consent. -/
def deepSetConsent (q : OpenRtbRequest) (c : String) : OpenRtbRequest :=
  let u := q.user.getD {}
  let ext := u.ext.getD {}
  { q with user := some { u with ext := some { ext with consent := some c } } }

/-- Modelled from the spec: deepSetValue on regs.ext.gdpr. -/
def deepSetGdpr (q : OpenRtbRequest) (g : Int) : OpenRtbRequest :=
  let rg := q.regs.getD {}
  let ext := rg.ext.getD {}
  { q with regs := some { rg with ext := some { ext with gdpr := some g } } }

/-- Modelled from the spec: deepSetValue on regs.ext.us_privacy. -/
def deepSetUsPrivacy (q : OpenRtbRequest) (u : String) : OpenRtbRequest :=
  let rg := q.regs.getD {}
  let ext := rg.ext.getD {}
  { q with regs := some { rg with ext := some { ext with us_privacy := some u } } }

/-- Optional extension writes at the end of buildRequestData: schain,
then GDPR consent, then CCPA, each guarded by JS truthiness of its
input (schain and gdprConsent are objects, hence truthy iff present;
uspConsent is a string, falsy when empty). -/
def applyExtensions (r : BidRequest) (q : OpenRtbRequest) : OpenRtbRequest :=
  let q1 := match r.schain with
    | some s => deepSetSchain q s
    | none => q
  let q2 := match r.gdprConsent with
    | some g => deepSetGdpr (deepSetConsent q1 g.consentString)
        (if g.gdprApplies then 1 else 0)
    | none => q1
  match r.uspConsent with
  | some u => if u = "" then q2 else deepSetUsPrivacy q2 u
  | none => q2

/-- Wire video construction inside buildRequestData: w and h from the
first playerSize row (parseInt base 10 is the identity on integers; a
missing index gives NaN, modelled none), verbatim copies of the ORTB
allow-list fields, then the placement and startdelay inference keyed
on params.context. -/
def mkVideo (p : Params) (v : VideoParamsIn) (row : List Int) : WireVideo :=
  { w := row.get? 0
    h := row.get? 1
    mimes := v.mimes
    minduration := v.minduration
    maxduration := v.maxduration
    protocols := v.protocols
    startdelay :=
      if p.context = some "instream" then some (jsOrInt v.startdelay 0)
      else v.startdelay
    skip := v.skip
    skipafter := v.skipafter
    minbitrate := v.minbitrate
    maxbitrate := v.maxbitrate
    delivery := v.delivery
    playbackmethod := v.playbackmethod
    api := v.api
    linearity := v.linearity
    placement :=
      if p.context = some "instream" then 1
      else jsOrInt v.placement 2 }

/-- Top-level assembly of the openrtbRequest literal: id, the single
impression (with floor resolution) and site. -/
def baseRequest (pg : Page) (r : BidRequest) (video : WireVideo) : OpenRtbRequest :=
  let bidFloorRequest : FloorRequest :=
    { currency := jsOrStr r.params.cur "USD", mediaType := "video", size := "*" }
  let floorData : FloorData :=
    match r.getFloor with
    | some f => f bidFloorRequest
    | none => { floor := r.params.floor, currency := r.params.currency }
  { id := r.bidId
    imp := [{ id := "1"
              video := video
              secure := if isSecure pg then 1 else 0
              bidfloor := floorData.floor
              bidfloorcur := floorData.currency }]
    site := { domain := pg.hostname
              page := pg.href
              ref := match r.refererInfo with
                | some ri => jsOrNull ri.referer
                | none => none } }

/-- Body of buildRequestData after the e2etest override. none models
the TypeError raised when mediaTypes, mediaTypes.video or
mediaTypes.video.playerSize is undefined, and when playerSize is the
empty array (playerSize[0][0] then dereferences undefined). -/
def buildCore (pg : Page) (r : BidRequest) : Option OpenRtbRequest :=
  match r.mediaTypes with
  | none => none
  | some mt =>
    match mt.video with
    | none => none
    | some v =>
      match v.playerSize with
      | none => none
      | some [] => none
      | some (row :: _) =>
        some (applyExtensions r (baseRequest pg r (mkVideo r.params v row)))

/-- buildRequestData from the source. The second component is the bid
request as left behind by the call: the e2etest branch mutates
mediaTypes.video in place (playerSize forced to [[640, 480]] and the
misspelled conext field set). A none first component models a thrown
TypeError, in which case the input is unchanged. -/
def buildRequestData (pg : Page) (r : BidRequest) :
    Option OpenRtbRequest × BidRequest :=
  if isE2e r then
    match r.mediaTypes with
    | none => (none, r)
    | some mt =>
      match mt.video with
      | none => (none, r)
      | some v =>
        let r2 := { r with mediaTypes := some { mt with
          video := some { v with
            playerSize := some [[640, 480]], conext := some "instream" } } }
        (buildCore pg r2, r2)
  else
    (buildCore pg r, r)

/-- One element of the buildRequests map: publisher id (overridden to
the literal e2etest in test mode, the string undefined standing for an
absent publisherId in the URL concatenation), POST method, endpoint
URL and the wire body. -/
def buildRequest (pg : Page) (r : BidRequest) : Option ServerRequest :=
  let publisherId := if isE2e r then "e2etest" else r.params.publisherId.getD "undefined"
  match (buildRequestData pg r).1 with
  | none => none
  | some body =>
    some { method := "POST", url := ENDPOINT_URL ++ "/" ++ publisherId, data := body }

/-- Normalized bid construction for the single accepted bid; vastXml
is added only when bid.adm is truthy. -/
def mkBidResponse (response : RespBody) (bid : ORTBBid) : NormalizedBid :=
  let base : NormalizedBid :=
    { requestId := response.id
      cpm := bid.price
      width := bid.w
      height := bid.h
      ad := bid.adm
      ttl := DEFAULT_BID_TTL
      creativeId := bid.crid
      netRevenue := DEFAULT_NET_REVENUE
      currency := DEFAULT_CURRENCY
      mediaType := "video"
      meta := { adomain := bid.adomain } }
  if truthyStr bid.adm then { base with vastXml := bid.adm } else base

/-- interpretResponse from the source: accept only a body with exactly
one seat holding exactly one bid (the length checks and the [0]
accesses of the source are rendered as singleton-list matches). -/
def interpretResponse (serverResponse : Option ServerResponse) : List NormalizedBid :=
  let response := match serverResponse with
    | some sr => sr.body
    | none => none
  match response with
  | none => []
  | some resp =>
    match resp.seatbid with
    | some [seat] =>
      match seat.bid with
      | some [b] => [mkBidResponse resp b]
      | _ => []
    | _ => []

/-- Video object of the first impression of a wire request. -/
def firstImpVideo (q : OpenRtbRequest) : Option WireVideo :=
  q.imp.head?.map Imp.video

/-- Video object of the first impression of the wire body built for a
bid request, none when the build throws. -/
def builtVideo (pg : Page) (r : BidRequest) : Option WireVideo :=
  ((buildRequestData pg r).1).bind firstImpVideo

/-- Deep read of source.ext.schain. -/
def schainOf (q : OpenRtbRequest) : Option SchainObj :=
  (q.source.bind SourceObj.ext).bind SourceExt.schain

/-- Deep read of user.ext.consent. -/
def consentOf (q : OpenRtbRequest) : Option String :=
  (q.user.bind UserObj.ext).bind UserExt.consent

/-- Deep read of regs.ext.gdpr. -/
def gdprOf (q : OpenRtbRequest) : Option Int :=
  (q.regs.bind Regs.ext).bind RegsExt.gdpr

/-- Deep read of regs.ext.us_privacy. -/
def usPrivacyOf (q : OpenRtbRequest) : Option String :=
  (q.regs.bind Regs.ext).bind RegsExt.us_privacy

/-- Concrete page context used for the concrete evaluations below. -/
def pg0 : Page :=
  { hostname := "pub.example", href := "https://pub.example/page", protocol := "https:" }

/-- Concrete instream bid request with no explicit placement. -/
def rW1 : BidRequest :=
  { bidId := "b1"
    params := { publisherId := some "pub1", context := some "instream" }
    mediaTypes := some { video := some {
      context := some "instream", playerSize := some [[640, 480]] } } }

/-- Wire video produced for rW1. -/
def wvW1 : WireVideo := { w := some 640, h := some 480, startdelay := some 0, placement := 1 }

/-- Concrete e2etest bid request without mediaTypes.video. -/
def rC2 : BidRequest :=
  { bidId := "b2c"
    params := { publisherId := some "pub2", video := some { e2etest := true } }
    mediaTypes := some { video := none } }

/-- Concrete e2etest bid request with an (empty) mediaTypes.video. -/
def rW2 : BidRequest :=
  { bidId := "b2w"
    params := { video := some { e2etest := true } }
    mediaTypes := some { video := some {} } }

/-- Concrete accepted response bid. -/
def bidW3 : ORTBBid := { price := some 3 }

/-- Concrete accepted response body with one seat and one bid. -/
def respW3 : RespBody := { id := some "a3", seatbid := some [{ bid := some [bidW3] }] }

/-- Concrete accepted server response. -/
def srW3 : Option ServerResponse := some { body := some respW3 }

/-- Concrete response bid exercising the full field mapping. -/
def bidW4 : ORTBBid :=
  { id := some "bid9", price := some ((5 : Rat) / 2), w := some 640, h := some 480
    adm := some "<VAST/>", crid := some "c1", adomain := some ["x.com"] }

/-- Seat wrapping bidW4. -/
def seatW4 : SeatBid := { bid := some [bidW4] }

/-- Body wrapping seatW4; its id differs from the bid id. -/
def respW4 : RespBody := { id := some "auction1", seatbid := some [seatW4] }

/-- Server response wrapping respW4. -/
def srW4 : Option ServerResponse := some { body := some respW4 }

/-- Response bid whose adm is present but empty (falsy). -/
def bidC4 : ORTBBid := { adm := some "" }

/-- Server response carrying bidC4 as its single bid. -/
def srC4 : Option ServerResponse :=
  some { body := some { id := some "a4", seatbid := some [{ bid := some [bidC4] }] } }

/-- Concrete bid request with an outstream context. -/
def rW5 : BidRequest :=
  { bidId := "b5"
    params := { publisherId := some "pub5" }
    mediaTypes := some { video := some {
      context := some "outstream", playerSize := some [[300, 250]] } } }

/-- Concrete bid request without mediaTypes. -/
def rC6 : BidRequest := { bidId := "b6", params := { publisherId := some "pub6" } }

/-- Concrete bid request with mediaTypes present but video absent. -/
def rW6 : BidRequest :=
  { bidId := "b6w", params := { publisherId := some "pub6" }, mediaTypes := some {} }

/-- Concrete e2etest bid request whose playerSize the builder
overwrites. -/
def rC7 : BidRequest :=
  { bidId := "b7"
    params := { publisherId := some "pub7", video := some { e2etest := true } }
    mediaTypes := some { video := some { playerSize := some [[1920, 1080]] } } }

/-- Concrete plain bid request left untouched by the builder. -/
def rW7 : BidRequest :=
  { bidId := "b7w"
    params := { publisherId := some "pub7" }
    mediaTypes := some { video := some {
      context := some "instream", playerSize := some [[640, 480]] } } }

/-- Concrete bid request whose uspConsent is present but empty. -/
def rC8 : BidRequest :=
  { bidId := "b8c"
    params := { publisherId := some "pub8" }
    mediaTypes := some { video := some {
      context := some "instream", playerSize := some [[1, 1]] } }
    uspConsent := some "" }

/-- Concrete supply-chain object. -/
def schW8 : SchainObj := { ver := "1.0", complete := 1, nodes := ["node1"] }

/-- Concrete bid request carrying all three optional extensions. -/
def rW8 : BidRequest :=
  { bidId := "b8"
    params := { publisherId := some "pub8w" }
    mediaTypes := some { video := some {
      context := some "instream", playerSize := some [[300, 250]] } }
    schain := some schW8
    gdprConsent := some { consentString := "CONSENT", gdprApplies := true }
    uspConsent := some "1YNN" }

/-- Wire video produced for rW8. -/
def wvW8 : WireVideo := { w := some 300, h := some 250, placement := 2 }

/-- Full wire body produced for rW8. -/
def qW8 : OpenRtbRequest :=
  { id := "b8"
    imp := [{ id := "1", video := wvW8, secure := 1 }]
    site := { domain := "pub.example", page := "https://pub.example/page" }
    source := some { ext := some { schain := some schW8 } }
    user := some { ext := some { consent := some "CONSENT" } }
    regs := some { ext := some { gdpr := some 1, us_privacy := some "1YNN" } } }

/-- Concrete e2etest bid request with playerSize [[1920, 1080]]. -/
def rC9 : BidRequest :=
  { bidId := "b9c"
    params := { publisherId := some "pub9", video := some { e2etest := true } }
    mediaTypes := some { video := some {
      context := some "instream", playerSize := some [[1920, 1080]] } } }

/-- Concrete plain bid request with playerSize [[1920, 1080]]. -/
def rW9 : BidRequest :=
  { bidId := "b9"
    params := { publisherId := some "pub9w" }
    mediaTypes := some { video := some {
      context := some "instream", playerSize := some [[1920, 1080]] } } }

/-- Wire video produced for rW9. -/
def wvW9 : WireVideo := { w := some 1920, h := some 1080, placement := 2 }

/-- Valid (by the e2etest bypass) bid request on which the builder
throws: no mediaTypes.video. -/
def r10a : BidRequest :=
  { bidId := "b10a"
    params := { publisherId := some "pubA", video := some { e2etest := true } }
    mediaTypes := some { video := none } }

/-- Valid bid request on which the builder throws: playerSize is the
empty array. -/
def r10b : BidRequest :=
  { bidId := "b10b"
    params := { publisherId := some "pubB" }
    mediaTypes := some { video := some {
      context := some "instream", playerSize := some [] } } }

/-- Extension writes never touch the impression list. -/
theorem applyExtensions_imp (r : BidRequest) (q : OpenRtbRequest) :
    (applyExtensions r q).imp = q.imp := by
  unfold applyExtensions
  cases r.schain <;> cases r.gdprConsent <;> rcases r.uspConsent with _ | u <;>
    simp only [deepSetSchain, deepSetConsent, deepSetGdpr, deepSetUsPrivacy] <;>
    first
      | rfl
      | (split <;> rfl)

/-- Full behaviour of the extension writes on a wire request whose
source, user and regs are still unset: each deep path equals its
(truthiness-filtered) input, absent inputs leave the top-level objects
absent, and the two regs siblings do not clobber each other. -/
theorem applyExtensions_spec (r : BidRequest) (q : OpenRtbRequest)
    (hs : q.source = none) (hu : q.user = none) (hg : q.regs = none) :
    schainOf (applyExtensions r q) = r.schain ∧
    consentOf (applyExtensions r q) = r.gdprConsent.map GdprConsent.consentString ∧
    gdprOf (applyExtensions r q) =
      r.gdprConsent.map (fun g => if g.gdprApplies then 1 else 0) ∧
    usPrivacyOf (applyExtensions r q) =
      (if truthyStr r.uspConsent then r.uspConsent else none) ∧
    (r.schain = none → (applyExtensions r q).source = none) ∧
    (r.gdprConsent = none → (applyExtensions r q).user = none) ∧
    (r.gdprConsent = none → truthyStr r.uspConsent = false →
      (applyExtensions r q).regs = none) := by
  unfold applyExtensions
  rcases hsch : r.schain with _ | s <;> rcases hgd : r.gdprConsent with _ | g <;>
      rcases husp : r.uspConsent with _ | u <;>
      simp only [deepSetSchain, deepSetConsent, deepSetGdpr, deepSetUsPrivacy,
        schainOf, consentOf, gdprOf, usPrivacyOf, truthyStr, hs, hu, hg] <;>
      first
        | (by_cases hu0 : u = "" <;> simp [hu0, hs, hu, hg])
        | simp

/-- C5: for every bid request without the e2etest bypass whose
mediaTypes.video.context is present but different from the literal
string instream (outstream included), isValid returns false. -/
theorem c5_context_not_instream (r : BidRequest) (mt : MediaTypes) (v : VideoParamsIn)
    (c : String) (he : isE2e r = false) (hmt : r.mediaTypes = some mt)
    (hv : mt.video = some v) (hc : v.context = some c) (hne : c ≠ "instream") :
    validateVideo r = some false := by
  cases hpub : truthyStr r.params.publisherId <;>
    by_cases hc0 : c = "" <;>
    simp [validateVideo, he, hmt, hv, hc, hc0, hne, truthyStr, hpub]

/-- Witness: the outstream request rW5 is rejected. -/
theorem c5_context_not_instream_witness : validateVideo rW5 = some false :=
  c5_context_not_instream rW5 _ _ "outstream" rfl rfl rfl rfl (by decide)

/-- C6 (amended): with mediaTypes present but mediaTypes.video absent,
isValid returns false; with mediaTypes itself absent the source throws
a TypeError instead of returning (see the counterexample). -/
theorem c6_video_absent (r : BidRequest) (mt : MediaTypes) (he : isE2e r = false)
    (hmt : r.mediaTypes = some mt) (hv : mt.video = none) :
    validateVideo r = some false := by
  simp [validateVideo, he, hmt, hv]

/-- Witness: rW6 has mediaTypes but no video and is rejected. -/
theorem c6_video_absent_witness : validateVideo rW6 = some false :=
  c6_video_absent rW6 {} rfl rfl rfl

/-- Counterexample to C6 as stated: on a bid request without
mediaTypes, validateVideo throws (none) instead of returning false. -/
theorem c6_counterexample :
    rC6.mediaTypes = none ∧ validateVideo rC6 = none ∧ validateVideo rC6 ≠ some false := by
  decide

/-- C7 (amended): for every bid request without the e2etest flag,
buildRequestData leaves the input bid request unchanged. -/
theorem c7_build_pure (pg : Page) (r : BidRequest) (he : isE2e r = false) :
    (buildRequestData pg r).2 = r := by
  simp [buildRequestData, he]

/-- Witness: the plain request rW7 is returned unchanged. -/
theorem c7_build_pure_witness : (buildRequestData pg0 rW7).2 = rW7 :=
  c7_build_pure pg0 rW7 rfl

/-- Counterexample to C7 as stated: on the e2etest request rC7 the
builder mutates mediaTypes.video (playerSize and conext), so the bid
request that comes back differs from the input. -/
theorem c7_mutation_counterexample : (buildRequestData pg0 rC7).2 ≠ rC7 := by
  intro h
  exact absurd (congrArg BidRequest.mediaTypes h) (by decide)

/-- C10: two bid requests accepted by the validator on which the
builder throws: the e2etest bypass admits r10a although it has no
mediaTypes.video, and r10b passes the Array.isArray check with an
empty playerSize on which playerSize[0][0] dereferences undefined.
Hence isValid = true does not guarantee the build is total. -/
theorem c10_isvalid_not_build_total :
    validateVideo r10a = some true ∧ (buildRequestData pg0 r10a).1 = none ∧
      validateVideo r10b = some true ∧ (buildRequestData pg0 r10b).1 = none := by
  decide

/-- C3: interpretResponse returns exactly one normalized bid iff the
response body exists with exactly one seat holding exactly one bid;
every other shape yields the empty list, and the result never has more
than one element. -/
theorem c3_accept_iff (sr : Option ServerResponse) :
    (interpretResponse sr).length ≤ 1 ∧
      ((interpretResponse sr).length = 1 ↔
        ∃ resp seat b, Option.bind sr ServerResponse.body = some resp ∧
          resp.seatbid = some [seat] ∧ seat.bid = some [b]) := by
  rcases sr with _ | s
  · simp [interpretResponse]
  · rcases hb : s.body with _ | resp
    · simp [interpretResponse, hb]
    · rcases hsb : resp.seatbid with _ | seats
      · simp [interpretResponse, hb, hsb]
      · rcases seats with _ | ⟨seat, rest⟩
        · simp [interpretResponse, hb, hsb]
        · rcases rest with _ | ⟨s2, r2⟩
          · rcases hbid : seat.bid with _ | bids
            · simp [interpretResponse, hb, hsb, hbid]
            · rcases bids with _ | ⟨b1, br⟩
              · simp [interpretResponse, hb, hsb, hbid]
              · rcases br with _ | ⟨b2, br2⟩
                · simp [interpretResponse, hb, hsb, hbid]
                · simp [interpretResponse, hb, hsb, hbid]
          · simp [interpretResponse, hb, hsb]

/-- Witness: the single-seat single-bid response srW3 yields exactly
one normalized bid. -/
theorem c3_accept_iff_witness : (interpretResponse srW3).length = 1 :=
  (c3_accept_iff srW3).2.mpr ⟨respW3, _, bidW3, rfl, rfl, rfl⟩

/-- C4 (amended): field mapping of the single accepted bid. requestId
comes from the top-level response id, cpm / width / height / ad /
creativeId / meta.adomain from the bid, ttl is 30, netRevenue true,
currency USD, mediaType video; vastXml equals bid.adm when adm is
truthy (present and non-empty) and is absent otherwise. -/
theorem c4_bid_mapping (sr : Option ServerResponse) (resp : RespBody) (seat : SeatBid)
    (b : ORTBBid) (hsr : sr = some { body := some resp })
    (hseat : resp.seatbid = some [seat]) (hbid : seat.bid = some [b]) :
    (interpretResponse sr).map NormalizedBid.requestId = [resp.id] ∧
    (interpretResponse sr).map NormalizedBid.cpm = [b.price] ∧
    (interpretResponse sr).map NormalizedBid.width = [b.w] ∧
    (interpretResponse sr).map NormalizedBid.height = [b.h] ∧
    (interpretResponse sr).map NormalizedBid.ad = [b.adm] ∧
    (interpretResponse sr).map NormalizedBid.ttl = [30] ∧
    (interpretResponse sr).map NormalizedBid.creativeId = [b.crid] ∧
    (interpretResponse sr).map NormalizedBid.netRevenue = [true] ∧
    (interpretResponse sr).map NormalizedBid.currency = ["USD"] ∧
    (interpretResponse sr).map NormalizedBid.mediaType = ["video"] ∧
    (interpretResponse sr).map (fun nb => nb.meta.adomain) = [b.adomain] ∧
    (interpretResponse sr).map NormalizedBid.vastXml =
      [if truthyStr b.adm then b.adm else none] := by
  subst hsr
  by_cases hadm : truthyStr b.adm = true <;>
    simp [interpretResponse, hseat, hbid, mkBidResponse, hadm,
      DEFAULT_BID_TTL, DEFAULT_NET_REVENUE, DEFAULT_CURRENCY]

/-- Witness: the mapping evaluated on the concrete response srW4
(auction id auction1, price 5/2, VAST markup present). -/
theorem c4_bid_mapping_witness :
    (interpretResponse srW4).map NormalizedBid.requestId = [some "auction1"] ∧
    (interpretResponse srW4).map NormalizedBid.cpm = [some ((5 : Rat) / 2)] ∧
    (interpretResponse srW4).map NormalizedBid.vastXml = [some "<VAST/>"] ∧
    (interpretResponse srW4).map NormalizedBid.ttl = [30] ∧
    (interpretResponse srW4).map NormalizedBid.currency = ["USD"] ∧
    (interpretResponse srW4).map NormalizedBid.netRevenue = [true] ∧
    (interpretResponse srW4).map (fun nb => nb.meta.adomain) = [some ["x.com"]] := by
  obtain ⟨h1, h2, h3, h4, h5, h6, h7, h8, h9, h10, h11, h12⟩ :=
    c4_bid_mapping srW4 respW4 seatW4 bidW4 rfl rfl rfl
  exact ⟨h1.trans rfl, h2.trans rfl, h12.trans (by decide), h6, h9, h8, h11.trans rfl⟩

/-- Counterexample to C4 as stated: bid.adm present but empty is falsy,
so vastXml is omitted although the claim requires vastXml = bid.adm
whenever adm is present. -/
theorem c4_vastxml_counterexample :
    bidC4.adm = some "" ∧
      (interpretResponse srC4).map NormalizedBid.vastXml = [none] ∧
      (interpretResponse srC4).map NormalizedBid.vastXml ≠ [bidC4.adm] := by
  decide

/-- C1: for a bid request that passed the validator without the
e2etest bypass and whose mediaTypes.video carries no explicit
placement, the built video object has placement 1 (and startdelay 0
when startdelay was unset) when params.context is instream, and
placement 2 when it is not. -/
theorem c1_placement_inference (pg : Page) (r : BidRequest) (mt : MediaTypes)
    (v : VideoParamsIn) (_hval : validateVideo r = some true) (he : isE2e r = false)
    (hmt : r.mediaTypes = some mt) (hv : mt.video = some v) (hpl : v.placement = none)
    (wv : WireVideo) (hwv : builtVideo pg r = some wv) :
    (r.params.context = some "instream" →
        wv.placement = 1 ∧ (v.startdelay = none → wv.startdelay = some 0)) ∧
      (r.params.context ≠ some "instream" → wv.placement = 2) := by
  rcases hps : v.playerSize with _ | ps
  · simp [builtVideo, buildRequestData, he, buildCore, hmt, hv, hps] at hwv
  · rcases ps with _ | ⟨row, rest⟩
    · simp [builtVideo, buildRequestData, he, buildCore, hmt, hv, hps] at hwv
    · simp [builtVideo, buildRequestData, he, buildCore, hmt, hv, hps,
        firstImpVideo, applyExtensions_imp, baseRequest] at hwv
      subst hwv
      constructor
      · intro hctx
        exact ⟨by simp [mkVideo, hctx], fun hsd => by simp [mkVideo, hctx, hsd, jsOrInt]⟩
      · intro hctx
        simp [mkVideo, hctx, hpl, jsOrInt]

/-- Witness: the instream request rW1 builds with placement 1 and
startdelay 0. -/
theorem c1_placement_inference_witness :
    builtVideo pg0 rW1 = some wvW1 ∧ wvW1.placement = 1 ∧ wvW1.startdelay = some 0 := by
  have hwv : builtVideo pg0 rW1 = some wvW1 := by decide
  have h := c1_placement_inference pg0 rW1 _ _ (by decide) rfl rfl rfl rfl wvW1 hwv
  exact ⟨hwv, (h.1 rfl).1, (h.1 rfl).2 rfl⟩

/-- C9 (amended): for a non-e2etest bid request whose first playerSize
row starts with w0, h0, the built video object has w = w0 and h = h0
(parseInt base 10 being the identity on integers). -/
theorem c9_first_player_size (pg : Page) (r : BidRequest) (mt : MediaTypes)
    (v : VideoParamsIn) (w0 h0 : Int) (restRow : List Int) (more : List (List Int))
    (he : isE2e r = false) (hmt : r.mediaTypes = some mt) (hv : mt.video = some v)
    (hps : v.playerSize = some ((w0 :: h0 :: restRow) :: more))
    (wv : WireVideo) (hwv : builtVideo pg r = some wv) :
    wv.w = some w0 ∧ wv.h = some h0 := by
  simp [builtVideo, buildRequestData, he, buildCore, hmt, hv, hps,
    firstImpVideo, applyExtensions_imp, baseRequest] at hwv
  subst hwv
  simp [mkVideo]

/-- Witness: playerSize [[1920, 1080]] round-trips to w 1920, h 1080
on the plain request rW9. -/
theorem c9_first_player_size_witness :
    builtVideo pg0 rW9 = some wvW9 ∧ wvW9.w = some 1920 ∧ wvW9.h = some 1080 := by
  have hwv : builtVideo pg0 rW9 = some wvW9 := by decide
  exact ⟨hwv, c9_first_player_size pg0 rW9 _ _ 1920 1080 [] [] rfl rfl rfl rfl wvW9 hwv⟩

/-- Counterexample to C9 as stated: on the e2etest request rC9 with
playerSize [[1920, 1080]] the builder first overwrites playerSize, so
the wire body carries w = 640, not 1920. -/
theorem c9_e2etest_counterexample :
    ((rC9.mediaTypes.bind MediaTypes.video).bind VideoParamsIn.playerSize) =
        some [[1920, 1080]] ∧
      (builtVideo pg0 rC9).map WireVideo.w = some (some 640) ∧
      (builtVideo pg0 rC9).map WireVideo.w ≠ some (some 1920) := by
  decide

/-- C2 (amended): with params.video.e2etest truthy, isValid returns
true regardless of every other field; and whenever mediaTypes.video is
present the build yields a descriptor whose URL is the endpoint
followed by the forced publisher id e2etest and whose body carries the
forced 640 by 480 player size. -/
theorem c2_e2etest_bypass (pg : Page) (r : BidRequest) (he : isE2e r = true) :
    validateVideo r = some true ∧
      ∀ mt v, r.mediaTypes = some mt → mt.video = some v →
        ∃ d, buildRequest pg r = some d ∧ d.url = ENDPOINT_URL ++ "/" ++ "e2etest" ∧
          (firstImpVideo d.data).map WireVideo.w = some (some 640) ∧
          (firstImpVideo d.data).map WireVideo.h = some (some 480) := by
  refine ⟨by simp [validateVideo, he], ?_⟩
  intro mt v hmt hv
  simp only [buildRequest, buildRequestData, he, hmt, hv, if_true]
  refine ⟨_, rfl, rfl, ?_, ?_⟩ <;>
    simp [firstImpVideo, applyExtensions_imp, baseRequest, buildCore, mkVideo]

/-- Witness: the e2etest request rW2 is valid and builds to the
e2etest URL with the forced player size. -/
theorem c2_e2etest_bypass_witness :
    validateVideo rW2 = some true ∧
      (buildRequest pg0 rW2).map ServerRequest.url =
        some (ENDPOINT_URL ++ "/" ++ "e2etest") ∧
      ((buildRequest pg0 rW2).map fun d => (firstImpVideo d.data).map WireVideo.w) =
        some (some (some 640)) ∧
      ((buildRequest pg0 rW2).map fun d => (firstImpVideo d.data).map WireVideo.h) =
        some (some (some 480)) := by
  obtain ⟨h1, h2⟩ := c2_e2etest_bypass pg0 rW2 rfl
  obtain ⟨d, hd, hu, hw, hh⟩ := h2 _ _ rfl rfl
  refine ⟨h1, ?_, ?_, ?_⟩ <;> rw [hd] <;> simp [hu, hw, hh]

/-- Counterexample to C2 as stated: the e2etest request rC2 has no
mediaTypes.video, isValid still accepts it, but the build throws
instead of producing a request descriptor. -/
theorem c2_counterexample :
    isE2e rC2 = true ∧ validateVideo rC2 = some true ∧ buildRequest pg0 rC2 = none := by
  decide

/-- C8 (amended): for every built wire body, source.ext.schain equals
the request schain and is absent iff schain is absent; user.ext.consent
and regs.ext.gdpr (1 when gdprApplies, else 0) exist iff gdprConsent is
present; regs.ext.us_privacy equals uspConsent iff uspConsent is truthy
(present and non-empty); absent inputs leave source, user and regs
entirely absent, and the sibling regs keys coexist. -/
theorem c8_extension_paths (pg : Page) (r : BidRequest) (q : OpenRtbRequest)
    (hq : (buildRequestData pg r).1 = some q) :
    schainOf q = r.schain ∧
    consentOf q = r.gdprConsent.map GdprConsent.consentString ∧
    gdprOf q = r.gdprConsent.map (fun g => if g.gdprApplies then 1 else 0) ∧
    usPrivacyOf q = (if truthyStr r.uspConsent then r.uspConsent else none) ∧
    (r.schain = none → q.source = none) ∧
    (r.gdprConsent = none → q.user = none) ∧
    (r.gdprConsent = none → truthyStr r.uspConsent = false → q.regs = none) := by
  by_cases he : isE2e r = true
  · rcases hmt : r.mediaTypes with _ | mt
    · simp [buildRequestData, he, hmt] at hq
    · rcases hv : mt.video with _ | v
      · simp [buildRequestData, he, hmt, hv] at hq
      · simp [buildRequestData, he, hmt, hv, buildCore] at hq
        subst hq
        exact applyExtensions_spec _ _ rfl rfl rfl
  · have he2 : isE2e r = false := by simpa using he
    rcases hmt : r.mediaTypes with _ | mt
    · simp [buildRequestData, he2, buildCore, hmt] at hq
    · rcases hv : mt.video with _ | v
      · simp [buildRequestData, he2, buildCore, hmt, hv] at hq
      · rcases hps : v.playerSize with _ | ps
        · simp [buildRequestData, he2, buildCore, hmt, hv, hps] at hq
        · rcases ps with _ | ⟨row, rest⟩
          · simp [buildRequestData, he2, buildCore, hmt, hv, hps] at hq
          · simp [buildRequestData, he2, buildCore, hmt, hv, hps] at hq
            subst hq
            exact applyExtensions_spec _ _ rfl rfl rfl

/-- Witness: on rW8 (schain, GDPR with gdprApplies, uspConsent 1YNN all
present) the built body is exactly qW8, whose three extension paths
hold the inputs side by side. -/
theorem c8_extension_paths_witness :
    (buildRequestData pg0 rW8).1 = some qW8 ∧
      schainOf qW8 = some schW8 ∧ consentOf qW8 = some "CONSENT" ∧
      gdprOf qW8 = some 1 ∧ usPrivacyOf qW8 = some "1YNN" := by
  have hq : (buildRequestData pg0 rW8).1 = some qW8 := by decide
  obtain ⟨h1, h2, h3, h4, h5, h6, h7⟩ := c8_extension_paths pg0 rW8 qW8 hq
  exact ⟨hq, h1.trans (by decide), h2.trans (by decide), h3.trans (by decide),
    h4.trans (by decide)⟩

/-- Counterexample to C8 as stated: uspConsent present but empty is
falsy, so regs (and regs.ext.us_privacy) is entirely absent from the
wire body although the input is present. -/
theorem c8_uspconsent_counterexample :
    rC8.uspConsent = some "" ∧
      ((buildRequestData pg0 rC8).1.map OpenRtbRequest.regs) = some none ∧
      ((buildRequestData pg0 rC8).1.map usPrivacyOf) = some none := by
  decide

end VideoByte
